import Mathlib

/-
Verification of the Diabete_app_1 clinical record application.

Shallow embedding of the two source files:
  * src/main.py          — routes `submit_patient`, `patients_dashboard`,
                           `delete_patient`, and helper `predict_diabetes`
  * src/models/database.py — tables `medecins`, `patients`, `predictions`
                           with their check constraints and cascades.

Numeric form fields (glucose, bmi, bloodpressure, pedigree, confidence)
are modelled over ℚ; ages over ℤ; row ids over ℕ.
-/

namespace DiabeteApp

/-! ## Data model (src/models/database.py) -/

/-- A row of the `medecins` table. -/
structure DoctorRow where
  id : Nat
  username : String
  email : String
  deriving Repr, DecidableEq

/-- A row of the `patients` table (src/models/database.py, class Patient).
`created_at` is modelled as a ℕ timestamp. -/
structure PatientRow where
  id : Nat
  doctorid : Nat
  name : String
  age : Int
  sex : String
  glucose : ℚ
  bmi : ℚ
  bloodpressure : ℚ
  pedigree : ℚ
  result : String
  created_at : Nat
  deriving Repr, DecidableEq

/-- A row of the `predictions` table (src/models/database.py, class Prediction). -/
structure PredictionRow where
  id : Nat
  patientid : Nat
  result : Int
  confidence : ℚ
  deriving Repr, DecidableEq

/-- The relational store: the three tables. -/
structure Store where
  doctors : List DoctorRow
  patients : List PatientRow
  predictions : List PredictionRow
  deriving Repr, DecidableEq

/-- The check constraints of `Patient.__table_args__`
(src/models/database.py lines 39–45): `check_age`, `check_sex`,
`check_glucose`, `check_bmi`, `check_pedigree`.  There is no constraint on
`bloodpressure` in the source. -/
def checkPatientConstraints (p : PatientRow) : Bool :=
  (0 ≤ p.age && p.age ≤ 150) &&
  (p.sex == "M" || p.sex == "F" || p.sex == "Homme" || p.sex == "Femme") &&
  (0 ≤ p.glucose) &&
  (0 ≤ p.bmi && p.bmi ≤ 100) &&
  (0 ≤ p.pedigree)

/-- Referential integrity of the store: every patient references a live
doctor and every prediction references a live patient (spec §3 invariants,
enforced in the source by the foreign keys of src/models/database.py). -/
def refIntegrity (s : Store) : Prop :=
  (∀ p ∈ s.patients, ∃ d ∈ s.doctors, d.id = p.doctorid) ∧
  (∀ pr ∈ s.predictions, ∃ p ∈ s.patients, p.id = pr.patientid)

/-! ## Predictor adapter (src/main.py, `predict_diabetes`) -/

/-- Outcome of one call into the loaded scikit-learn artifact:
either a label together with the class-probability vector
(`model.predict` and `model.predict_proba`), or an exception during
inference. -/
inductive ModelRun where
  | ok (label : Int) (proba : List ℚ)
  | raised
  deriving Repr

/-- The loaded classifier artifact (`model.pkl`): a function from the
feature row handed to `model.predict` / `model.predict_proba` to the
inference outcome. -/
structure Classifier where
  run : List ℚ → ModelRun

/-- The single-row feature frame built at src/main.py line 158:
`[[glucose, bloodpressure, bmi, pedigree, age]]`. -/
def classifierInput (glucose bloodpressure bmi pedigree age : ℚ) : List ℚ :=
  [glucose, bloodpressure, bmi, pedigree, age]

/-- The column labels of the feature frame (src/main.py line 159). -/
def classifierColumns : List String :=
  ["Glucose", "BloodPressure", "BMI", "DiabetesPedigreeFunction", "Age"]

/-- Python's `max` over a nonempty list; `none` when the list is empty
(where Python raises `ValueError`, caught by the bare `except`). -/
def listMax : List ℚ → Option ℚ
  | [] => none
  | x :: xs => some (xs.foldl max x)

/-- `predict_diabetes` (src/main.py lines 151–171).  Returns
`(some label, confidence)` on success, and `(none, 0)` when the model is
not loaded or inference raises.  `confidence = max(proba) * 100`. -/
def predict_diabetes (model : Option Classifier)
    (glucose bloodpressure bmi pedigree age : ℚ) : Option Int × ℚ :=
  match model with
  | none => (none, 0)
  | some c =>
    match c.run (classifierInput glucose bloodpressure bmi pedigree age) with
    | ModelRun.raised => (none, 0)
    | ModelRun.ok label proba =>
      match listMax proba with
      | none => (none, 0)
      | some mx => (some label, mx * 100)

/-- Modelled from the spec (§4.2): the contract of the external trained
artifact `model.pkl`, which is not part of src/ — a binary classifier whose
`predict` yields a label in {0,1} and whose `predict_proba` yields a
nonempty vector of class probabilities, each in [0,1]. -/
def GoodModel (model : Option Classifier) : Prop :=
  ∀ c, model = some c → ∀ input label proba, c.run input = ModelRun.ok label proba →
    (label = 0 ∨ label = 1) ∧ proba ≠ [] ∧ ∀ q ∈ proba, 0 ≤ q ∧ q ≤ 1

/-! ## Patient submission (src/main.py, `submit_patient`, lines 300–378)

The route runs: session check → `predict_diabetes` → interpret result →
`db.add(db_patient); db.commit()` (first transaction) → if the prediction
is valid, `db.add(db_prediction); db.commit()` (second transaction).
Commits can fail (constraint violation or any persistence error); the
`except` handler calls `db.rollback()`, which can only discard work of the
transaction still open.  `commitFails n` says whether the n-th `db.commit()`
of the route fails for a reason other than a check-constraint violation. -/

/-- What the route hands back to the browser. -/
inductive SubmitResponse where
  | redirectLogin
  | success (result_text : String)
  | errorPage
  deriving Repr, DecidableEq

/-- Result of one `submit_patient` request: the store afterwards, whether
`predict_diabetes` was invoked, and the response. -/
structure SubmitResult where
  store : Store
  predictorInvoked : Bool
  response : SubmitResponse
  deriving Repr, DecidableEq

/-- Autoincrement for the `patients` table. -/
def nextPatientId (s : Store) : Nat :=
  s.patients.foldr (fun p m => max p.id m) 0 + 1

/-- Autoincrement for the `predictions` table. -/
def nextPredictionId (s : Store) : Nat :=
  s.predictions.foldr (fun pr m => max pr.id m) 0 + 1

/-- The diabetic / non-diabetic / prediction-error result texts written at
src/main.py lines 327–330. -/
def interpretResult (prediction : Option Int) : String :=
  match prediction with
  | some l => if l == 1 then "Diabétique" else "Non diabétique"
  | none => "Erreur de prédiction"

/-- Whether the first commit of `submit_patient` goes through: the row must
satisfy the table's check constraints, its doctor foreign key must resolve,
and no other persistence failure may occur. -/
def patientCommitOk (commitFails : Nat → Bool) (s : Store) (p : PatientRow) : Bool :=
  checkPatientConstraints p && s.doctors.any (fun d => d.id == p.doctorid)
    && ! commitFails 0

/-- The `db_patient` row built at src/main.py lines 334–345: the form
fields plus the interpreted result text. -/
def builtPatient (model : Option Classifier) (doctor_id : Nat) (name : String)
    (age : Int) (sex : String) (glucose bmi bloodpressure pedigree : ℚ)
    (now : Nat) (s : Store) : PatientRow :=
  ⟨nextPatientId s, doctor_id, name, age, sex, glucose, bmi, bloodpressure,
    pedigree,
    interpretResult (predict_diabetes model glucose bloodpressure bmi pedigree age).1,
    now⟩

/-- `submit_patient` (src/main.py lines 300–378), as a function of the
loaded model, a persistence-failure oracle, the session's doctor id, the
form fields and the current store. -/
def submit_patient (model : Option Classifier) (commitFails : Nat → Bool)
    (session_doctor : Option Nat) (name : String) (age : Int) (sex : String)
    (glucose bmi bloodpressure pedigree : ℚ) (now : Nat) (s : Store) :
    SubmitResult :=
  match session_doctor with
  | none => ⟨s, false, SubmitResponse.redirectLogin⟩
  | some doctor_id =>
    let pr := predict_diabetes model glucose bloodpressure bmi pedigree age
    let result_text := interpretResult pr.1
    let predInt : Int := match pr.1 with | some l => l | none => -1
    let confidence : ℚ := match pr.1 with | some _ => pr.2 | none => 0
    let db_patient : PatientRow :=
      builtPatient model doctor_id name age sex glucose bmi bloodpressure
        pedigree now s
    if patientCommitOk commitFails s db_patient then
      let s1 : Store := { s with patients := s.patients ++ [db_patient] }
      if predInt ≠ -1 then
        if commitFails 1 then
          -- the patient commit is already durable; rollback only discards
          -- the pending prediction insert
          ⟨s1, true, SubmitResponse.errorPage⟩
        else
          let db_prediction : PredictionRow :=
            ⟨nextPredictionId s1, db_patient.id, predInt, confidence⟩
          ⟨{ s1 with predictions := s1.predictions ++ [db_prediction] },
            true, SubmitResponse.success result_text⟩
      else
        ⟨s1, true, SubmitResponse.success result_text⟩
    else
      -- first commit raised; rollback leaves the store untouched
      ⟨s, true, SubmitResponse.errorPage⟩

/-! ## Dashboard (src/main.py, `patients_dashboard`, lines 381–447) -/

/-- Insertion of one row into a list sorted by `le`. -/
def insertSorted (le : PatientRow → PatientRow → Bool) (x : PatientRow) :
    List PatientRow → List PatientRow
  | [] => [x]
  | y :: ys => if le x y then x :: y :: ys else y :: insertSorted le x ys

/-- Insertion sort used to model the SQL `ORDER BY`. -/
def sortRows (le : PatientRow → PatientRow → Bool) :
    List PatientRow → List PatientRow
  | [] => []
  | x :: xs => insertSorted le x (sortRows le xs)

/-- The `ORDER BY` chosen at src/main.py lines 406–413: name ascending,
age descending, result ascending, or creation time descending (default). -/
def sortPatients (sort_by : String) (ps : List PatientRow) : List PatientRow :=
  if sort_by == "name" then sortRows (fun a b => a.name ≤ b.name) ps
  else if sort_by == "age" then sortRows (fun a b => b.age ≤ a.age) ps
  else if sort_by == "result" then sortRows (fun a b => a.result ≤ b.result) ps
  else sortRows (fun a b => b.created_at ≤ a.created_at) ps

/-- The filter part of the dashboard query (src/main.py lines 397–403):
the doctor's patients, optionally restricted to the diabetic or the
non-diabetic result text. -/
def filterPatients (doctor_id : Nat) (filter_status : Option String)
    (s : Store) : List PatientRow :=
  let base := s.patients.filter (fun p => p.doctorid == doctor_id)
  match filter_status with
  | some fs =>
    if fs == "diabetic" then base.filter (fun p => p.result == "Diabétique")
    else if fs == "non_diabetic" then
      base.filter (fun p => p.result == "Non diabétique")
    else base
  | none => base

/-- `query.all()` of the dashboard: filter then sort. -/
def dashboardPatients (doctor_id : Nat) (filter_status : Option String)
    (sort_by : String) (s : Store) : List PatientRow :=
  sortPatients sort_by (filterPatients doctor_id filter_status s)

/-- Python's `round(x, 1)`: round half to even at one decimal, on ℚ. -/
def pythonRound1 (x : ℚ) : ℚ :=
  let y := x * 10
  let f : ℤ := Int.floor y
  let r := y - f
  let n : ℤ :=
    if r < 1/2 then f
    else if 1/2 < r then f + 1
    else if f % 2 = 0 then f else f + 1
  (n : ℚ) / 10

/-- The `stats` dictionary of the dashboard. -/
structure Stats where
  total : Nat
  diabetic : Nat
  non_diabetic : Nat
  diabetic_percentage : ℚ
  deriving Repr, DecidableEq

/-- The statistics block of `patients_dashboard`
(src/main.py lines 417–427). -/
def computeStats (patients : List PatientRow) : Stats :=
  let total_patients := patients.length
  let diabetic_patients :=
    (patients.filter (fun p => p.result == "Diabétique")).length
  let diabetic_percentage : ℚ :=
    if total_patients > 0 then
      (diabetic_patients : ℚ) / (total_patients : ℚ) * 100
    else 0
  { total := total_patients
    diabetic := diabetic_patients
    non_diabetic := total_patients - diabetic_patients
    diabetic_percentage := pythonRound1 diabetic_percentage }

/-- The dashboard route's statistics for a doctor, filter and sort. -/
def patients_dashboard_stats (doctor_id : Nat) (filter_status : Option String)
    (sort_by : String) (s : Store) : Stats :=
  computeStats (dashboardPatients doctor_id filter_status sort_by s)

/-! ## Deletion (src/main.py, `delete_patient`, lines 450–486, and the
cascades declared in src/models/database.py) -/

/-- Cascade of `Patient.predictions` (src/models/database.py line 49) and
of the `predictions.patientid` foreign key: deleting a patient row removes
its prediction rows. -/
def deletePatientCascade (pid : Nat) (s : Store) : Store :=
  { s with
    patients := s.patients.filter (fun p => ! (p.id == pid))
    predictions := s.predictions.filter (fun pr => ! (pr.patientid == pid)) }

/-- Cascade of `Medecin.patients` (src/models/database.py line 20) and the
`patients.doctorid` foreign key: deleting a doctor removes the owned
patients and, through them, their predictions. -/
def deleteDoctorCascade (did : Nat) (s : Store) : Store :=
  let removedIds :=
    (s.patients.filter (fun p => p.doctorid == did)).map (fun p => p.id)
  { doctors := s.doctors.filter (fun d => ! (d.id == did))
    patients := s.patients.filter (fun p => ! (p.doctorid == did))
    predictions :=
      s.predictions.filter (fun pr => ! removedIds.contains pr.patientid) }

/-- `delete_patient` (src/main.py lines 450–486): look the patient up by
the (id, session doctor id) pair; when found, delete it (predictions
cascade); otherwise redirect with "Patient non trouvé" and touch nothing.
Returns the store afterwards and whether a row was deleted. -/
def delete_patient (patient_id : Nat) (doctor_id : Nat) (s : Store) :
    Store × Bool :=
  match s.patients.find? (fun p => p.id == patient_id && p.doctorid == doctor_id) with
  | none => (s, false)
  | some p => (deletePatientCascade p.id s, true)

/-! ## Concrete fixtures for witnesses and counterexamples -/

/-- A classifier that always answers label 1 with probabilities (1/4, 3/4). -/
def demoClassifier : Classifier := ⟨fun _ => ModelRun.ok 1 [mkRat 1 4, mkRat 3 4]⟩

/-- A classifier that always answers label 0 with probabilities (7/10, 3/10). -/
def zeroClassifier : Classifier := ⟨fun _ => ModelRun.ok 0 [mkRat 7 10, mkRat 3 10]⟩

/-- A store holding one doctor and nothing else. -/
def demoStore : Store := ⟨[⟨1, "drdupont", "dupont at example"⟩], [], []⟩

/-- Persistence oracle with no transient failures. -/
def noFail : Nat → Bool := fun _ => false

/-- Persistence oracle under which the second commit of a request fails. -/
def secondCommitFails : Nat → Bool := fun n => n == 1

/-- A patient row with the given id and result text. -/
def mkPatient (pid : Nat) (res : String) : PatientRow :=
  ⟨pid, 1, "p", 40, "F", 100, 25, 70, mkRat 1 2, res, pid⟩

/-- Four patients of doctor 1, exactly one diabetic. -/
def fourPatients : List PatientRow :=
  [mkPatient 1 "Diabétique", mkPatient 2 "Non diabétique",
    mkPatient 3 "Non diabétique", mkPatient 4 "Non diabétique"]

/-- Two patients, one carrying the prediction-error label. -/
def errPatients : List PatientRow :=
  [mkPatient 1 "Erreur de prédiction", mkPatient 2 "Non diabétique"]

/-- A store where patient 5 is owned by doctor 2, not doctor 1. -/
def otherDocStore : Store :=
  ⟨[⟨1, "a", "b"⟩, ⟨2, "c", "d"⟩],
    [⟨5, 2, "p", 40, "F", 100, 25, 70, mkRat 1 2, "Diabétique", 3⟩],
    [⟨9, 5, 1, 80⟩]⟩

/-- A row with a negative blood pressure that satisfies every check
constraint of the `patients` table. -/
def negativeBPRow : PatientRow :=
  ⟨1, 1, "Bob", 50, "M", 148, mkRat 336 10, -5, mkRat 627 1000, "Diabétique", 0⟩

/-! ## C1 — patient and prediction inserts are not one transaction -/

/-- C1 counterexample: with a loaded model and a store holding doctor 1, a
failure of the second commit (the Prediction insert) leaves the committed
Patient row in place with zero Prediction rows — a partial result, so the
two inserts are not one atomic transaction. -/
theorem patient_survives_prediction_commit_failure :
    (submit_patient (some demoClassifier) secondCommitFails (some 1)
        ("Alice") 50 ("F") 148 33 72 1 17 demoStore).store.patients ≠ [] ∧
    (submit_patient (some demoClassifier) secondCommitFails (some 1)
        ("Alice") 50 ("F") 148 33 72 1 17 demoStore).store.predictions = [] ∧
    (submit_patient (some demoClassifier) secondCommitFails (some 1)
        ("Alice") 50 ("F") 148 33 72 1 17 demoStore).response
      = SubmitResponse.errorPage := by
  decide

/-- C1 amended: the Patient and Prediction inserts are committed in two
separate transactions.  A failure of the first commit rolls back and leaves
the store unchanged; but a failure of the second commit (the Prediction
insert) leaves the already-committed Patient row behind and no Prediction
row. -/
theorem submit_two_transactions (model : Option Classifier) (cf : Nat → Bool)
    (did : Nat) (name : String) (age : Int) (sex : String)
    (glucose bmi bloodpressure pedigree : ℚ) (now : Nat) (s : Store) :
    (cf 0 = true →
      (submit_patient model cf (some did) name age sex glucose bmi
        bloodpressure pedigree now s).store = s) ∧
    (∀ l, (predict_diabetes model glucose bloodpressure bmi pedigree age).1 = some l →
      l ≠ -1 →
      patientCommitOk cf s (builtPatient model did name age sex glucose bmi
        bloodpressure pedigree now s) = true →
      cf 1 = true →
      (submit_patient model cf (some did) name age sex glucose bmi
          bloodpressure pedigree now s).store.patients
        = s.patients ++ [builtPatient model did name age sex glucose bmi
            bloodpressure pedigree now s] ∧
      (submit_patient model cf (some did) name age sex glucose bmi
          bloodpressure pedigree now s).store.predictions = s.predictions ∧
      (submit_patient model cf (some did) name age sex glucose bmi
          bloodpressure pedigree now s).response = SubmitResponse.errorPage) := by
  constructor
  · intro h0
    have hfail : patientCommitOk cf s (builtPatient model did name age sex
        glucose bmi bloodpressure pedigree now s) = false := by
      simp [patientCommitOk, h0]
    simp [submit_patient, hfail]
  · intro l hl hne hcommit h1
    simp [submit_patient, hl, hne, hcommit, h1]

/-- C1 amended witness: with the always-ok oracle replaced by one failing
the second commit, a concrete request leaves exactly the patient row. -/
theorem submit_two_transactions_witness :
    ((predict_diabetes (some demoClassifier) 148 72 33 1 50).1 = some 1) ∧
    (patientCommitOk secondCommitFails demoStore
      (builtPatient (some demoClassifier) 1 ("Alice") 50 ("F") 148 33 72 1 17
        demoStore) = true) ∧
    (secondCommitFails 1 = true) ∧
    ((submit_patient (some demoClassifier) secondCommitFails (some 1)
        ("Alice") 50 ("F") 148 33 72 1 17 demoStore).store.patients
      = demoStore.patients ++ [builtPatient (some demoClassifier) 1 ("Alice")
          50 ("F") 148 33 72 1 17 demoStore] ∧
      (submit_patient (some demoClassifier) secondCommitFails (some 1)
        ("Alice") 50 ("F") 148 33 72 1 17 demoStore).store.predictions
        = demoStore.predictions ∧
      (submit_patient (some demoClassifier) secondCommitFails (some 1)
        ("Alice") 50 ("F") 148 33 72 1 17 demoStore).response
        = SubmitResponse.errorPage) :=
  ⟨by decide, by decide, by decide,
    (submit_two_transactions (some demoClassifier) secondCommitFails 1
        ("Alice") 50 ("F") 148 33 72 1 17 demoStore).2 1
      (by decide) (by decide) (by decide) (by decide)⟩

/-! ## C2 — no input validation happens before prediction or persistence -/

/-- C2 counterexample: a form with a negative blood pressure (outside its
stated range) is not rejected: the predictor is invoked and the patient row
is persisted, so there is no input validator acting before the predictor
or the persistence writer. -/
theorem out_of_range_reaches_predictor_and_store :
    ((-5 : ℚ) < 0) ∧
    (submit_patient (some demoClassifier) noFail (some 1)
        ("Alice") 50 ("F") 148 33 (-5) 1 17 demoStore).predictorInvoked = true ∧
    (submit_patient (some demoClassifier) noFail (some 1)
        ("Alice") 50 ("F") 148 33 (-5) 1 17 demoStore).store.patients ≠ [] := by
  decide

/-- C2 amended: the application performs no range validation of its own.
Every logged-in submission invokes the predictor, whatever the field
values; when the row violates one of the table check constraints (age,
sex, glucose, BMI, pedigree — not blood pressure) the commit fails and the
transaction rolls back with no row persisted, but only after the predictor
has run. -/
theorem no_app_level_validation (model : Option Classifier) (cf : Nat → Bool)
    (did : Nat) (name : String) (age : Int) (sex : String)
    (glucose bmi bloodpressure pedigree : ℚ) (now : Nat) (s : Store) :
    (submit_patient model cf (some did) name age sex glucose bmi
      bloodpressure pedigree now s).predictorInvoked = true ∧
    (checkPatientConstraints (builtPatient model did name age sex glucose bmi
        bloodpressure pedigree now s) = false →
      (submit_patient model cf (some did) name age sex glucose bmi
        bloodpressure pedigree now s).store = s ∧
      (submit_patient model cf (some did) name age sex glucose bmi
        bloodpressure pedigree now s).response = SubmitResponse.errorPage) := by
  constructor
  · simp only [submit_patient]
    split <;> first | rfl | (split <;> first | rfl | (split <;> rfl))
  · intro hbad
    have hfail : patientCommitOk cf s (builtPatient model did name age sex
        glucose bmi bloodpressure pedigree now s) = false := by
      simp [patientCommitOk, hbad]
    simp [submit_patient, hfail]

/-- C2 amended witness: a submission with age −1 violates the age
constraint: the store is untouched and the error page returned, yet the
predictor was invoked. -/
theorem no_app_level_validation_witness :
    (submit_patient (some demoClassifier) noFail (some 1)
      ("Alice") (-1) ("F") 148 33 72 1 17 demoStore).predictorInvoked = true ∧
    (checkPatientConstraints (builtPatient (some demoClassifier) 1 ("Alice")
      (-1) ("F") 148 33 72 1 17 demoStore) = false) ∧
    ((submit_patient (some demoClassifier) noFail (some 1)
        ("Alice") (-1) ("F") 148 33 72 1 17 demoStore).store = demoStore ∧
      (submit_patient (some demoClassifier) noFail (some 1)
        ("Alice") (-1) ("F") 148 33 72 1 17 demoStore).response
        = SubmitResponse.errorPage) :=
  ⟨(no_app_level_validation (some demoClassifier) noFail 1 ("Alice") (-1)
      ("F") 148 33 72 1 17 demoStore).1,
    by decide,
    (no_app_level_validation (some demoClassifier) noFail 1 ("Alice") (-1)
      ("F") 148 33 72 1 17 demoStore).2 (by decide)⟩

/-! ## C3 — predict returns a valid labelled outcome or the unavailable one -/

/-- The left fold of `max` over a list yields the seed or a list element. -/
theorem foldlMax_mem (xs : List ℚ) (x : ℚ) :
    xs.foldl max x = x ∨ xs.foldl max x ∈ xs := by
  induction xs generalizing x with
  | nil => left; rfl
  | cons y ys ih =>
    rw [List.foldl_cons]
    rcases ih (max x y) with h | h
    · rcases max_choice x y with hxy | hxy
      · left; rw [h, hxy]
      · right; rw [h, hxy]; exact List.mem_cons_self y ys
    · right; exact List.mem_cons_of_mem y h

/-- C3: under the binary-classifier contract of the artifact,
`predict_diabetes` either returns the unavailable outcome `(none, 0)` or a
label in {0, 1} with a confidence in [0, 100] (the maximum class
probability as a percentage); as a total function it never raises. -/
theorem predict_returns_valid_outcome (model : Option Classifier)
    (glucose bloodpressure bmi pedigree age : ℚ) (hm : GoodModel model) :
    predict_diabetes model glucose bloodpressure bmi pedigree age = (none, 0) ∨
    ∃ l conf,
      predict_diabetes model glucose bloodpressure bmi pedigree age = (some l, conf) ∧
      (l = 0 ∨ l = 1) ∧ 0 ≤ conf ∧ conf ≤ 100 := by
  cases model with
  | none => left; rfl
  | some c =>
    cases hrun : c.run (classifierInput glucose bloodpressure bmi pedigree age) with
    | raised => left; simp [predict_diabetes, hrun]
    | ok label proba =>
      obtain ⟨hl, hne, hbound⟩ := hm c rfl _ label proba hrun
      obtain ⟨q, qs, rfl⟩ : ∃ q qs, proba = q :: qs := by
        cases proba with
        | nil => exact absurd rfl hne
        | cons a as => exact ⟨a, as, rfl⟩
      right
      have hmem : qs.foldl max q ∈ q :: qs := by
        rcases foldlMax_mem qs q with h | h
        · rw [h]; exact List.mem_cons_self q qs
        · exact List.mem_cons_of_mem q h
      obtain ⟨h0, h1⟩ := hbound _ hmem
      refine ⟨label, qs.foldl max q * 100, ?_, hl, ?_, ?_⟩
      · simp [predict_diabetes, hrun, listMax]
      · positivity
      · nlinarith

/-- C3 witness: the demo classifier satisfies the contract, and the concrete
spec example input (glucose 148, blood pressure 72, BMI 33.6,
pedigree 0.627, age 50) yields a valid labelled outcome. -/
theorem predict_returns_valid_outcome_witness :
    GoodModel (some demoClassifier) ∧
    (predict_diabetes (some demoClassifier) 148 72 (mkRat 336 10)
        (mkRat 627 1000) 50 = (none, 0) ∨
      ∃ l conf,
        predict_diabetes (some demoClassifier) 148 72 (mkRat 336 10)
          (mkRat 627 1000) 50 = (some l, conf) ∧
        (l = 0 ∨ l = 1) ∧ 0 ≤ conf ∧ conf ≤ 100) := by
  have hgood : GoodModel (some demoClassifier) := by
    intro c hc input label proba hrun
    cases hc
    cases hrun
    refine ⟨Or.inr rfl, by decide, ?_⟩
    intro r hr
    rcases List.mem_cons.1 hr with rfl | h
    · constructor <;> decide
    · rcases List.mem_singleton.1 h with rfl
      constructor <;> decide
  exact ⟨hgood,
    predict_returns_valid_outcome (some demoClassifier) 148 72 (mkRat 336 10)
      (mkRat 627 1000) 50 hgood⟩

/-! ## C4 — the feature vector order is glucose, blood pressure, BMI, pedigree, age -/

/-- C4: the feature row handed to the classifier is exactly
`[glucose, bloodpressure, bmi, pedigree, age]`, in that fixed order:
`predict_diabetes` consults the classifier only at that ordered vector, so
two classifiers agreeing there give identical predictions. -/
theorem classifier_receives_fixed_order (c c2 : Classifier)
    (glucose bloodpressure bmi pedigree age : ℚ)
    (h : c.run [glucose, bloodpressure, bmi, pedigree, age]
      = c2.run [glucose, bloodpressure, bmi, pedigree, age]) :
    classifierInput glucose bloodpressure bmi pedigree age
      = [glucose, bloodpressure, bmi, pedigree, age] ∧
    predict_diabetes (some c) glucose bloodpressure bmi pedigree age
      = predict_diabetes (some c2) glucose bloodpressure bmi pedigree age := by
  refine ⟨rfl, ?_⟩
  simp only [predict_diabetes, classifierInput]
  rw [h]

/-- C4 witness: instantiated with two equal-behaviour classifiers at the
spec example input. -/
theorem classifier_receives_fixed_order_witness :
    demoClassifier.run [148, 72, mkRat 336 10, mkRat 627 1000, 50]
      = demoClassifier.run [148, 72, mkRat 336 10, mkRat 627 1000, 50] ∧
    (classifierInput 148 72 (mkRat 336 10) (mkRat 627 1000) 50
      = [148, 72, mkRat 336 10, mkRat 627 1000, 50] ∧
    predict_diabetes (some demoClassifier) 148 72 (mkRat 336 10)
        (mkRat 627 1000) 50
      = predict_diabetes (some demoClassifier) 148 72 (mkRat 336 10)
        (mkRat 627 1000) 50) :=
  ⟨rfl, classifier_receives_fixed_order demoClassifier demoClassifier
    148 72 (mkRat 336 10) (mkRat 627 1000) 50 rfl⟩

/-! ## C5 — the stored result text matches the linked prediction label -/

/-- C5: when the classifier answers with a label in {0, 1} and the commits
succeed, exactly one patient row and one linked prediction row are
appended; the patient's result text is "Diabétique" precisely when the
label is 1 and "Non diabétique" precisely when it is 0.  When the model is
unavailable, the patient is still persisted with the degraded label
"Erreur de prédiction" and no prediction row is added. -/
theorem result_text_matches_prediction :
    (∀ (c : Classifier) (cf : Nat → Bool) (did : Nat) (name : String)
        (age : Int) (sex : String) (glucose bmi bloodpressure pedigree : ℚ)
        (now : Nat) (s : Store) (l : Int) (q : ℚ) (qs : List ℚ),
      c.run (classifierInput glucose bloodpressure bmi pedigree age)
        = ModelRun.ok l (q :: qs) →
      (l = 0 ∨ l = 1) →
      patientCommitOk cf s (builtPatient (some c) did name age sex glucose
        bmi bloodpressure pedigree now s) = true →
      cf 1 = false →
      (submit_patient (some c) cf (some did) name age sex glucose bmi
          bloodpressure pedigree now s).store.patients
        = s.patients ++ [builtPatient (some c) did name age sex glucose bmi
            bloodpressure pedigree now s] ∧
      (submit_patient (some c) cf (some did) name age sex glucose bmi
          bloodpressure pedigree now s).store.predictions
        = s.predictions ++
            [⟨nextPredictionId { s with patients := s.patients ++
                [builtPatient (some c) did name age sex glucose bmi
                  bloodpressure pedigree now s] },
              (builtPatient (some c) did name age sex glucose bmi
                bloodpressure pedigree now s).id,
              l, qs.foldl max q * 100⟩] ∧
      ((builtPatient (some c) did name age sex glucose bmi bloodpressure
          pedigree now s).result = "Diabétique" ↔ l = 1) ∧
      ((builtPatient (some c) did name age sex glucose bmi bloodpressure
          pedigree now s).result = "Non diabétique" ↔ l = 0)) ∧
    (∀ (cf : Nat → Bool) (did : Nat) (name : String) (age : Int)
        (sex : String) (glucose bmi bloodpressure pedigree : ℚ) (now : Nat)
        (s : Store),
      patientCommitOk cf s (builtPatient none did name age sex glucose bmi
        bloodpressure pedigree now s) = true →
      (submit_patient none cf (some did) name age sex glucose bmi
          bloodpressure pedigree now s).store.patients
        = s.patients ++ [builtPatient none did name age sex glucose bmi
            bloodpressure pedigree now s] ∧
      (submit_patient none cf (some did) name age sex glucose bmi
          bloodpressure pedigree now s).store.predictions = s.predictions ∧
      (builtPatient none did name age sex glucose bmi bloodpressure pedigree
        now s).result = "Erreur de prédiction") := by
  constructor
  · intro c cf did name age sex glucose bmi bloodpressure pedigree now s
      l q qs hrun hl01 hcommit hcf1
    have hpred : predict_diabetes (some c) glucose bloodpressure bmi pedigree age
        = (some l, qs.foldl max q * 100) := by
      simp [predict_diabetes, hrun, listMax]
    have hne : l ≠ -1 := by rcases hl01 with rfl | rfl <;> decide
    refine ⟨?_, ?_, ?_, ?_⟩
    · simp [submit_patient, hpred, hne, hcommit, hcf1]
    · simp [submit_patient, hpred, hne, hcommit, hcf1]
    · simp only [builtPatient, hpred, interpretResult]
      rcases hl01 with rfl | rfl <;> simp
    · simp only [builtPatient, hpred, interpretResult]
      rcases hl01 with rfl | rfl <;> simp
  · intro cf did name age sex glucose bmi bloodpressure pedigree now s hcommit
    refine ⟨?_, ?_, rfl⟩ <;>
      simp [submit_patient, predict_diabetes, hcommit]

/-- C5 witness: both halves at concrete inputs — the demo classifier
(label 1) appends one patient labelled "Diabétique" and one linked
prediction with label 1; the absent model appends one patient labelled
"Erreur de prédiction" and no prediction. -/
theorem result_text_matches_prediction_witness :
    (demoClassifier.run (classifierInput 148 72 33 1 50)
        = ModelRun.ok 1 [mkRat 1 4, mkRat 3 4] ∧
      patientCommitOk noFail demoStore (builtPatient (some demoClassifier) 1
        ("Alice") 50 ("F") 148 33 72 1 17 demoStore) = true ∧
      ((submit_patient (some demoClassifier) noFail (some 1) ("Alice") 50
          ("F") 148 33 72 1 17 demoStore).store.patients
        = demoStore.patients ++ [builtPatient (some demoClassifier) 1
            ("Alice") 50 ("F") 148 33 72 1 17 demoStore] ∧
        (submit_patient (some demoClassifier) noFail (some 1) ("Alice") 50
            ("F") 148 33 72 1 17 demoStore).store.predictions
          = demoStore.predictions ++
              [⟨nextPredictionId { demoStore with patients :=
                  demoStore.patients ++ [builtPatient (some demoClassifier) 1
                    ("Alice") 50 ("F") 148 33 72 1 17 demoStore] },
                (builtPatient (some demoClassifier) 1 ("Alice") 50 ("F") 148
                  33 72 1 17 demoStore).id,
                1, [mkRat 3 4].foldl max (mkRat 1 4) * 100⟩] ∧
        ((builtPatient (some demoClassifier) 1 ("Alice") 50 ("F") 148 33 72
            1 17 demoStore).result = "Diabétique" ↔ (1 : Int) = 1) ∧
        ((builtPatient (some demoClassifier) 1 ("Alice") 50 ("F") 148 33 72
            1 17 demoStore).result = "Non diabétique" ↔ (1 : Int) = 0))) ∧
    (patientCommitOk noFail demoStore (builtPatient none 1 ("Bob") 50 ("M")
        148 33 72 1 17 demoStore) = true ∧
      ((submit_patient none noFail (some 1) ("Bob") 50 ("M") 148 33 72 1 17
          demoStore).store.patients
        = demoStore.patients ++ [builtPatient none 1 ("Bob") 50 ("M") 148 33
            72 1 17 demoStore] ∧
        (submit_patient none noFail (some 1) ("Bob") 50 ("M") 148 33 72 1 17
          demoStore).store.predictions = demoStore.predictions ∧
        (builtPatient none 1 ("Bob") 50 ("M") 148 33 72 1 17
          demoStore).result = "Erreur de prédiction")) :=
  ⟨⟨rfl, by decide,
      (result_text_matches_prediction.1 demoClassifier noFail 1 ("Alice") 50
        ("F") 148 33 72 1 17 demoStore 1 (mkRat 1 4) [mkRat 3 4] rfl
        (Or.inr rfl) (by decide) rfl)⟩,
    ⟨by decide,
      (result_text_matches_prediction.2 noFail 1 ("Bob") 50 ("M") 148 33 72 1
        17 demoStore (by decide))⟩⟩

/-! ## C7 — deletion is keyed by the (patient id, doctor id) pair -/

/-- C7: if the patient with the requested id exists but belongs to a
different doctor than the requester, `delete_patient` finds no row, deletes
nothing, and returns the store unchanged. -/
theorem delete_other_doctor (pid did : Nat) (s : Store)
    (_hex : ∃ p ∈ s.patients, p.id = pid)
    (hnot : ∀ p ∈ s.patients, p.id = pid → p.doctorid ≠ did) :
    delete_patient pid did s = (s, false) := by
  have hfind : s.patients.find? (fun p => p.id == pid && p.doctorid == did) = none := by
    refine List.find?_eq_none.2 fun p hp hB => ?_
    simp only [Bool.and_eq_true, beq_iff_eq] at hB
    exact hnot p hp hB.1 hB.2
  simp [delete_patient, hfind]

/-- C7 witness: in `otherDocStore`, patient 5 exists and is owned by
doctor 2; a deletion request by doctor 1 leaves the store unchanged. -/
theorem delete_other_doctor_witness :
    (∃ p ∈ otherDocStore.patients, p.id = 5) ∧
    (∀ p ∈ otherDocStore.patients, p.id = 5 → p.doctorid ≠ 1) ∧
    delete_patient 5 1 otherDocStore = (otherDocStore, false) :=
  ⟨by decide, by decide, delete_other_doctor 5 1 otherDocStore (by decide) (by decide)⟩

/-! ## C6 — the dashboard diabetic percentage -/

/-- Inserting into a sorted list permutes consing. -/
theorem insertSorted_perm (le : PatientRow → PatientRow → Bool)
    (x : PatientRow) (l : List PatientRow) :
    (insertSorted le x l).Perm (x :: l) := by
  induction l with
  | nil => exact List.Perm.refl _
  | cons y ys ih =>
    rw [insertSorted]
    split
    · exact List.Perm.refl _
    · exact (ih.cons y).trans (List.Perm.swap x y ys)

/-- The insertion sort permutes its input. -/
theorem sortRows_perm (le : PatientRow → PatientRow → Bool)
    (l : List PatientRow) : (sortRows le l).Perm l := by
  induction l with
  | nil => exact List.Perm.refl _
  | cons x xs ih =>
    rw [sortRows]
    exact (insertSorted_perm le x (sortRows le xs)).trans (ih.cons x)

/-- Every `ORDER BY` variant permutes the filtered set. -/
theorem sortPatients_perm (sort_by : String) (l : List PatientRow) :
    (sortPatients sort_by l).Perm l := by
  rw [sortPatients]
  split_ifs <;> exact sortRows_perm _ l

/-- Rounding zero to one decimal gives zero. -/
theorem pythonRound1_zero : pythonRound1 0 = 0 := by
  norm_num [pythonRound1]

/-- C6: the dashboard's diabetic percentage is recomputed from the full
filtered set: it equals the count of "Diabétique" results over the size of
the filtered set times 100, rounded to one decimal, whatever the sort; it
is exactly 0 for an empty filtered set, and 25.0 for four patients of whom
one is diabetic. -/
theorem dashboard_percentage_spec :
    (∀ (did : Nat) (fs : Option String) (sb : String) (s : Store),
      ((patients_dashboard_stats did fs sb s).diabetic_percentage =
        (if (filterPatients did fs s).length = 0 then 0
         else pythonRound1
           (((filterPatients did fs s).countP
              (fun p => p.result == "Diabétique") : ℚ) /
            ((filterPatients did fs s).length : ℚ) * 100))) ∧
      (filterPatients did fs s = [] →
        (patients_dashboard_stats did fs sb s).diabetic_percentage = 0)) ∧
    (computeStats fourPatients).diabetic_percentage = 25 ∧
    (computeStats []).diabetic_percentage = 0 := by
  refine ⟨?_, ?_, ?_⟩
  · intro did fs sb s
    have hperm := sortPatients_perm sb (filterPatients did fs s)
    have hlen : (dashboardPatients did fs sb s).length
        = (filterPatients did fs s).length := hperm.length_eq
    have hcount : ((dashboardPatients did fs sb s).filter
          (fun p => p.result == "Diabétique")).length
        = (filterPatients did fs s).countP (fun p => p.result == "Diabétique") := by
      rw [← List.countP_eq_length_filter]
      exact hperm.countP_eq _
    constructor
    · rw [patients_dashboard_stats]
      simp only [computeStats, hlen, hcount]
      by_cases h0 : (filterPatients did fs s).length = 0
      · simp [h0, pythonRound1_zero]
      · have : 0 < (filterPatients did fs s).length := Nat.pos_of_ne_zero h0
        simp [h0, this]
    · intro hnil
      rw [patients_dashboard_stats]
      have hd : dashboardPatients did fs sb s = [] := by
        rw [dashboardPatients, hnil]
        cases hs : sortPatients sb [] with
        | nil => rfl
        | cons a as =>
          have := (sortPatients_perm sb []).length_eq
          rw [hs] at this
          simp at this
      rw [hd]
      simp [computeStats, pythonRound1_zero]
  · have h1 : (fourPatients.filter (fun p => p.result == "Diabétique")).length
        = 1 := by decide
    have h4 : fourPatients.length = 4 := by decide
    simp only [computeStats, h1, h4]
    norm_num [pythonRound1]
  · simp [computeStats, pythonRound1_zero]

/-- C6 witness: a dashboard over a store with no patients has an empty
filtered set and percentage exactly 0. -/
theorem dashboard_percentage_spec_witness :
    filterPatients 1 none demoStore = [] ∧
    (patients_dashboard_stats 1 none ("created_at") demoStore).diabetic_percentage
      = 0 :=
  ⟨by decide,
    ((dashboard_percentage_spec.1 1 none ("created_at") demoStore).2
      (by decide))⟩

/-! ## C9 — table check constraints -/

/-- C9 counterexample: the check constraints of the `patients` table admit
a row whose blood pressure is negative — there is no `bloodpressure`
constraint in src/models/database.py, so the claimed backstop for the
blood-pressure range does not exist. -/
theorem blood_pressure_not_constrained :
    checkPatientConstraints negativeBPRow = true ∧
    negativeBPRow.bloodpressure < 0 := by decide

/-- C9 amended: every row admitted by the check constraints satisfies the
age, sex, glucose, BMI and pedigree ranges; blood pressure is not
constrained. -/
theorem check_constraints_ranges (p : PatientRow)
    (h : checkPatientConstraints p = true) :
    (0 ≤ p.age ∧ p.age ≤ 150) ∧
    (p.sex = "M" ∨ p.sex = "F" ∨ p.sex = "Homme" ∨ p.sex = "Femme") ∧
    0 ≤ p.glucose ∧ (0 ≤ p.bmi ∧ p.bmi ≤ 100) ∧ 0 ≤ p.pedigree := by
  simp only [checkPatientConstraints, Bool.and_eq_true, Bool.or_eq_true,
    decide_eq_true_eq, beq_iff_eq] at h
  exact ⟨⟨h.1.1.1.1.1, h.1.1.1.1.2⟩, by tauto, h.1.1.2, ⟨h.1.2.1, h.1.2.2⟩, h.2⟩

/-- C9 amended witness: a concrete in-range row passes the constraints and
satisfies all five enforced ranges. -/
theorem check_constraints_ranges_witness :
    checkPatientConstraints (mkPatient 3 "Diabétique") = true ∧
    ((0 ≤ (mkPatient 3 "Diabétique").age ∧ (mkPatient 3 "Diabétique").age ≤ 150) ∧
      ((mkPatient 3 "Diabétique").sex = "M" ∨ (mkPatient 3 "Diabétique").sex = "F" ∨
        (mkPatient 3 "Diabétique").sex = "Homme" ∨ (mkPatient 3 "Diabétique").sex = "Femme") ∧
      0 ≤ (mkPatient 3 "Diabétique").glucose ∧
      (0 ≤ (mkPatient 3 "Diabétique").bmi ∧ (mkPatient 3 "Diabétique").bmi ≤ 100) ∧
      0 ≤ (mkPatient 3 "Diabétique").pedigree) :=
  ⟨by decide, check_constraints_ranges (mkPatient 3 "Diabétique") (by decide)⟩

/-! ## C8 — cascading deletes keep the three tables referentially intact -/

/-- Deleting a patient (with its cascade) preserves referential
integrity. -/
theorem deletePatientCascade_integrity (pid : Nat) (s : Store)
    (h : refIntegrity s) : refIntegrity (deletePatientCascade pid s) := by
  obtain ⟨hpat, hpred⟩ := h
  constructor
  · intro p hp
    simp only [deletePatientCascade] at hp ⊢
    exact hpat p (List.mem_filter.1 hp).1
  · intro pr hpr
    simp only [deletePatientCascade] at hpr ⊢
    obtain ⟨hmem, hcond⟩ := List.mem_filter.1 hpr
    obtain ⟨p, hp, hpid⟩ := hpred pr hmem
    refine ⟨p, List.mem_filter.2 ⟨hp, ?_⟩, hpid⟩
    simpa [hpid] using hcond

/-- Deleting a doctor (with its two-level cascade) preserves referential
integrity. -/
theorem deleteDoctorCascade_integrity (did : Nat) (s : Store)
    (h : refIntegrity s) : refIntegrity (deleteDoctorCascade did s) := by
  obtain ⟨hpat, hpred⟩ := h
  constructor
  · intro p hp
    simp only [deleteDoctorCascade] at hp ⊢
    obtain ⟨hmem, hcond⟩ := List.mem_filter.1 hp
    obtain ⟨d, hd, hdid⟩ := hpat p hmem
    refine ⟨d, List.mem_filter.2 ⟨hd, ?_⟩, hdid⟩
    simp only [Bool.not_eq_true', beq_eq_false_iff_ne, ne_eq] at hcond ⊢
    rw [hdid]
    exact hcond
  · intro pr hpr
    simp only [deleteDoctorCascade] at hpr ⊢
    obtain ⟨hmem, hcond⟩ := List.mem_filter.1 hpr
    have hnotin : pr.patientid ∉
        (s.patients.filter (fun p => p.doctorid == did)).map (fun p => p.id) := by
      simpa using hcond
    obtain ⟨p, hp, hpid⟩ := hpred pr hmem
    refine ⟨p, List.mem_filter.2 ⟨hp, ?_⟩, hpid⟩
    simp only [Bool.not_eq_true', beq_eq_false_iff_ne, ne_eq]
    intro hpd
    exact hnotin (List.mem_map.2 ⟨p, List.mem_filter.2 ⟨hp, by simp [hpd]⟩, hpid⟩)

/-- C8: deleting a patient removes every prediction of that patient,
deleting a doctor removes every owned patient (and the doctor row itself),
and all three deletion operations — the two cascades and the
`delete_patient` route — keep the store free of predictions without a live
patient and of patients without a live doctor. -/
theorem cascades_preserve_integrity (pid did : Nat) (s : Store)
    (h : refIntegrity s) :
    (∀ pr ∈ (deletePatientCascade pid s).predictions, pr.patientid ≠ pid) ∧
    refIntegrity (deletePatientCascade pid s) ∧
    (∀ p ∈ (deleteDoctorCascade did s).patients, p.doctorid ≠ did) ∧
    (∀ d ∈ (deleteDoctorCascade did s).doctors, d.id ≠ did) ∧
    refIntegrity (deleteDoctorCascade did s) ∧
    refIntegrity (delete_patient pid did s).1 := by
  refine ⟨?_, deletePatientCascade_integrity pid s h, ?_, ?_,
    deleteDoctorCascade_integrity did s h, ?_⟩
  · intro pr hpr
    simp only [deletePatientCascade] at hpr
    simpa using (List.mem_filter.1 hpr).2
  · intro p hp
    simp only [deleteDoctorCascade] at hp
    simpa using (List.mem_filter.1 hp).2
  · intro d hd
    simp only [deleteDoctorCascade] at hd
    simpa using (List.mem_filter.1 hd).2
  · rw [delete_patient]
    cases hf : s.patients.find? (fun p => p.id == pid && p.doctorid == did) with
    | none => simpa using h
    | some p => simpa using deletePatientCascade_integrity p.id s h

/-- C8 witness: a store with one doctor-patient-prediction chain is
referentially intact and stays so under both cascades. -/
theorem cascades_preserve_integrity_witness :
    refIntegrity otherDocStore ∧
    refIntegrity (deletePatientCascade 5 otherDocStore) ∧
    refIntegrity (deleteDoctorCascade 2 otherDocStore) ∧
    (∀ pr ∈ (deletePatientCascade 5 otherDocStore).predictions,
      pr.patientid ≠ 5) :=
  ⟨⟨by decide, by decide⟩,
    (cascades_preserve_integrity 5 2 otherDocStore ⟨by decide, by decide⟩).2.1,
    (cascades_preserve_integrity 5 2 otherDocStore ⟨by decide, by decide⟩).2.2.2.2.1,
    (cascades_preserve_integrity 5 2 otherDocStore ⟨by decide, by decide⟩).1⟩

/-! ## C10 — the non-diabetic aggregate counts every non-"Diabétique" label -/

/-- C10: the dashboard's `non_diabetic` statistic is `total - diabetic`,
i.e. the number of patients whose result text is anything other than
"Diabétique"; hence when the set contains a patient with a third label
(such as the prediction-error text) the non-diabetic count strictly exceeds
the number of patients actually labelled "Non diabétique". -/
theorem non_diabetic_counts_other_labels (ps : List PatientRow) :
    (computeStats ps).non_diabetic =
      (ps.filter (fun p => ! (p.result == "Diabétique"))).length ∧
    (∀ p ∈ ps, p.result ≠ "Diabétique" → p.result ≠ "Non diabétique" →
      (ps.filter (fun q => ! (q.result == "Diabétique"))).length >
        (ps.filter (fun q => q.result == "Non diabétique")).length) := by
  constructor
  · have hsplit := ps.length_eq_length_filter_add (fun p => p.result == "Diabétique")
    simp only [computeStats]
    omega
  · intro p hp hd hnd
    have h1 : (ps.filter (fun q => ! (q.result == "Diabétique"))).length
        = ps.countP (fun q => ! (q.result == "Diabétique")) :=
      (List.countP_eq_length_filter _ ps).symm
    have h2 := List.countP_eq_countP_filter_add ps
      (fun q => ! (q.result == "Diabétique")) (fun q => q.result == "Non diabétique")
    have h3 : (ps.filter (fun q => q.result == "Non diabétique")).countP
        (fun q => ! (q.result == "Diabétique"))
        = (ps.filter (fun q => q.result == "Non diabétique")).length := by
      refine List.countP_eq_length.2 fun a ha => ?_
      have := (List.mem_filter.1 ha).2
      simp only [beq_iff_eq] at this
      simp [this]
    have h4 : 0 < (ps.filter (fun q => ! (q.result == "Non diabétique"))).countP
        (fun q => ! (q.result == "Diabétique")) := by
      refine List.countP_pos_iff.2 ⟨p, List.mem_filter.2 ⟨hp, ?_⟩, ?_⟩
      · simp [hnd]
      · simp [hd]
    omega

/-- C10 witness: in the two-patient set containing a prediction-error
label, the non-diabetic aggregate is 2 although only one patient is
labelled "Non diabétique". -/
theorem non_diabetic_counts_other_labels_witness :
    (computeStats errPatients).non_diabetic =
      (errPatients.filter (fun p => ! (p.result == "Diabétique"))).length ∧
    (errPatients.filter (fun q => ! (q.result == "Diabétique"))).length >
      (errPatients.filter (fun q => q.result == "Non diabétique")).length :=
  ⟨(non_diabetic_counts_other_labels errPatients).1,
    (non_diabetic_counts_other_labels errPatients).2
      (mkPatient 1 "Erreur de prédiction") (by decide) (by decide) (by decide)⟩

end DiabeteApp
